/-
Verification of the isthisai bot core (bot.py, src/storage.py,
src/reddit_client.py, src/detector.py, cli_detect.py) against its
natural-language specification.

The Python code is shallowly embedded: float arithmetic is modelled over ℚ,
the sqlite-backed Storage as a record holding the cursor and the replied-id
ledger, and the side effects of a handler run (storage writes, queue pushes,
outbound Reddit calls) as an explicit event trace in program order.
-/
import Mathlib

/-- Boolean occurrence test on character lists: `pat` occurs contiguously
in `s`. Used to model Python's `in` operator on strings. -/
def charListOccursIn (pat : List Char) : List Char → Bool
  | [] => pat.isEmpty
  | c :: rest => List.isPrefixOf pat (c :: rest) || charListOccursIn pat rest

/-- Model of Python's `pat in s` substring test. -/
def strContains (s pat : String) : Bool :=
  charListOccursIn pat.toList s.toList

/-- Model of Python's `str.lower()` (character-wise, as a structural map so
that it evaluates in the kernel). -/
def strToLower (s : String) : String :=
  ⟨s.data.map Char.toLower⟩

/-- Model of Python's `str.strip()`: drop leading and trailing whitespace. -/
def strStrip (s : String) : String :=
  ⟨((s.data.dropWhile Char.isWhitespace).reverse.dropWhile
      Char.isWhitespace).reverse⟩

/-- Helper for `wordCount`: count maximal non-whitespace runs; the flag says
whether the scan currently sits inside a word. -/
def wordCountAux : Bool → List Char → Nat
  | _, [] => 0
  | inWord, c :: rest =>
      if Char.isWhitespace c then wordCountAux false rest
      else (if inWord then 0 else 1) + wordCountAux true rest

/-- Model of Python's `len(text.split())`: the number of whitespace-separated
words. -/
def wordCount (text : String) : Nat :=
  wordCountAux false text.data

/-- Model of Python's `int()` on the nonnegative decimal strings relevant to
`label_N` labels: all-digit strings parse, everything else raises. -/
def digitsToNat? (cs : List Char) : Option Nat :=
  if cs.isEmpty then none
  else if cs.all Char.isDigit then
    some (cs.foldl (fun n c => n * 10 + (c.toNat - 48)) 0)
  else none

/-- State held by `Storage` (src/storage.py): the `state` table's single
`last_seen_id` row, and the `replied_ids` table as a list of comment ids. -/
structure StorageState where
  lastSeenId : Option String
  replied : List String
deriving DecidableEq, Repr

/-- Model of `Storage.get_last_seen_id`. -/
def get_last_seen_id (s : StorageState) : Option String :=
  s.lastSeenId

/-- Model of `Storage.set_last_seen_id`: upsert of the `last_seen_id` key. -/
def set_last_seen_id (s : StorageState) (fullname : String) : StorageState :=
  { s with lastSeenId := some fullname }

/-- Model of `Storage.has_replied`: membership in `replied_ids`. -/
def has_replied (s : StorageState) (commentId : String) : Bool :=
  s.replied.contains commentId

/-- Model of `Storage.mark_replied`: `INSERT OR IGNORE` into `replied_ids`. -/
def mark_replied (s : StorageState) (commentId : String) : StorageState :=
  if s.replied.contains commentId then s
  else { s with replied := commentId :: s.replied }

/-- A fetched Reddit comment, with the fields bot.py reads. -/
structure Comment where
  fullname : String
  id : String
  body : String
deriving DecidableEq, Repr

/-- Observable actions of a handler run, in program order: storage writes,
job-queue pushes, and outbound Reddit calls. -/
inductive Event where
  | setLastSeen (fullname : String)
  | enqueueFetchReply (commentId : String)
  | enqueuePoll
  | clearPollFlag
  | fetchComment (commentId : String)
  | fetchParentSubmission
  | postReply (body : String)
  | markReplied (commentId : String)
deriving DecidableEq, Repr

/-- Recognizer for poll-job pushes. -/
def Event.isEnqueuePoll : Event → Bool
  | .enqueuePoll => true
  | _ => false

/-- Recognizer for React-job pushes. -/
def Event.isEnqueueFetchReply : Event → Bool
  | .enqueueFetchReply _ => true
  | _ => false

/-- Number of poll jobs pushed in a trace. -/
def countPollJobs (evs : List Event) : Nat :=
  (evs.filter Event.isEnqueuePoll).length

/-- Number of React (fetch_and_reply) jobs pushed in a trace. -/
def countReactJobs (evs : List Event) : Nat :=
  (evs.filter Event.isEnqueueFetchReply).length

/-- The bot state touched by the poll handler: storage plus the
`poll_in_progress` threading.Event (the in-flight flag). -/
structure BotState where
  storage : StorageState
  pollInProgress : Bool
deriving DecidableEq, Repr

/-- The `for comment in reversed(comments)` loop body of
`Bot.handle_poll_job`: push a React job for each comment whose lowercased
body contains the trigger and that is not already in the ledger. The
storage argument is not mutated by the loop, only read. -/
def pollLoopEvents (trigger : String) (store : StorageState) : List Comment → List Event
  | [] => []
  | c :: cs =>
      if strContains (strToLower c.body) trigger && !(has_replied store c.id) then
        Event.enqueueFetchReply c.id :: pollLoopEvents trigger store cs
      else
        pollLoopEvents trigger store cs

/-- Model of `Bot.handle_poll_job`, applied to the list the fetch collaborator
returned (newest first). Returns the new bot state and the trace of effects
in program order: on a non-empty page, first the cursor write, then the React
pushes over the reversed list, then either a chained poll push (full page)
or the in-flight flag clear. -/
def handle_poll_job (trigger : String) (st : BotState) (comments : List Comment) :
    BotState × List Event :=
  match comments with
  | [] => ({ st with pollInProgress := false }, [Event.clearPollFlag])
  | c0 :: rest =>
      let store1 := set_last_seen_id st.storage c0.fullname
      let reacts := pollLoopEvents trigger store1 (c0 :: rest).reverse
      if (c0 :: rest).length == 100 then
        ({ st with storage := store1 },
          Event.setLastSeen c0.fullname :: (reacts ++ [Event.enqueuePoll]))
      else
        ({ st with storage := store1, pollInProgress := false },
          Event.setLastSeen c0.fullname :: (reacts ++ [Event.clearPollFlag]))

/-- Model of `Bot._confidence_band` (bot.py). Scores are modelled over ℚ. -/
def bot_confidence_band (score : ℚ) : String :=
  if score ≥ 0.8 ∨ score ≤ 0.2 then "high"
  else if score ≥ 0.65 ∨ score ≤ 0.35 then "medium"
  else "low"

/-- Model of `confidence_band` (cli_detect.py). -/
def cli_confidence_band (score : ℚ) : String :=
  if score ≥ 0.8 ∨ score ≤ 0.2 then "high"
  else if score ≥ 0.65 ∨ score ≤ 0.35 then "medium"
  else "low"

/-- Rendering of Python's `%.2f` / `:.2f` for the nonnegative scores that
occur: round score*100 to an integer and print with two decimals. -/
def format2dp (p : ℚ) : String :=
  let n : ℤ := round (p * 100)
  let frac : ℕ := (n % 100).toNat
  toString (n / 100) ++ "." ++ (if frac < 10 then "0" else "") ++ toString frac

/-- The fixed fallback reply body for posts with no analyzable text
(bot.py, handle_fetch_and_reply). -/
def fallbackBody : String :=
  "🤖 **AI Analysis:** I can only analyze text posts with body content.\n\n" ++
  "*Note: AI detection is never definitive.*"

/-- The analysis reply body composed by `Bot.handle_fetch_and_reply`. -/
def analysisBody (pct : ℤ) (confidence : String) (words : Nat) (score : ℚ)
    (warning : String) : String :=
  "🤖 **AI Analysis:** " ++ toString pct ++ "% likely AI-generated " ++
  "*(confidence: " ++ confidence ++ " - post is " ++ toString words ++ " words)*\n" ++
  "Signal: classifier score " ++ format2dp score ++ "\n\n" ++
  "*Note: AI detection is never definitive.*" ++ warning

/-- Collaborator responses consumed by one `handle_fetch_and_reply` run:
the parent submission's selftext and the detector's probability for the
stripped text, plus the `min_words_warning` setting. -/
structure ReactEnv where
  selftext : Option String
  probability : ℚ
  minWordsWarning : Nat
deriving DecidableEq, Repr

/-- Model of `Bot.handle_fetch_and_reply`: given the collaborator responses,
the storage state and the job's comment id, return the new storage state and
the trace of effects in program order. The ledger check precedes every
collaborator call; a hit returns immediately with an empty trace. -/
def handle_fetch_and_reply (env : ReactEnv) (store : StorageState)
    (commentId : String) : StorageState × List Event :=
  if has_replied store commentId then (store, [])
  else
    let text := strStrip (env.selftext.getD "")
    if text.data.isEmpty then
      (mark_replied store commentId,
        [Event.fetchComment commentId, Event.fetchParentSubmission,
         Event.postReply fallbackBody, Event.markReplied commentId])
    else
      let words := wordCount text
      let pct : ℤ := round (env.probability * 100)
      let confidence := bot_confidence_band env.probability
      let warning :=
        if words < env.minWordsWarning then
          "\n\n⚠️ Short text warning: this post is only " ++ toString words ++
          " words, so detector accuracy may be lower."
        else ""
      (mark_replied store commentId,
        [Event.fetchComment commentId, Event.fetchParentSubmission,
         Event.postReply (analysisBody pct confidence words env.probability warning),
         Event.markReplied commentId])

/-- Rate-limiter state (src/reddit_client.py, class TokenBucket). Times and
token counts are modelled over ℚ. -/
structure TokenBucket where
  capacity : ℚ
  tokens : ℚ
  refillPerSecond : ℚ
  lastRefill : ℚ
deriving DecidableEq, Repr

/-- Model of `TokenBucket.__init__`: the bucket starts full. -/
def TokenBucket.init (capacity refillPerSecond now : ℚ) : TokenBucket :=
  { capacity := capacity, tokens := capacity,
    refillPerSecond := refillPerSecond, lastRefill := now }

/-- Model of `TokenBucket._refill`: lazily accrue `elapsed * rate` tokens,
capped at capacity; a non-positive elapsed time is a no-op. -/
def TokenBucket.refill (b : TokenBucket) (now : ℚ) : TokenBucket :=
  let elapsed := now - b.lastRefill
  if elapsed ≤ 0 then b
  else { b with
          tokens := min b.capacity (b.tokens + elapsed * b.refillPerSecond),
          lastRefill := now }

/-- One lock-held attempt of `TokenBucket.consume`: refill, then decrement
and succeed when enough tokens are available, else leave the bucket and
report failure (the caller sleeps and retries). -/
def TokenBucket.consumeStep (b : TokenBucket) (now amount : ℚ) :
    TokenBucket × Bool :=
  let b1 := b.refill now
  if b1.tokens ≥ amount then ({ b1 with tokens := b1.tokens - amount }, true)
  else (b1, false)

/-- The spec's TokenBucket invariant: `0 ≤ tokens ≤ capacity`. -/
def TokenBucket.inv (b : TokenBucket) : Prop :=
  0 ≤ b.tokens ∧ b.tokens ≤ b.capacity

instance (b : TokenBucket) : Decidable b.inv := by
  unfold TokenBucket.inv; infer_instance

/-- One classifier output entry (`label`/`score` dict in detector.py). -/
structure ClassEntry where
  label : String
  score : ℚ
deriving DecidableEq, Repr

/-- Result record returned by `AiDetector.detect`. -/
structure DetectionResult where
  probability_ai : ℚ
  label : String
deriving DecidableEq, Repr

/-- Model of `AiDetector._semantic_label`: lowercase the label; a
`label_N` pattern is resolved through the model's id2label map (whose values
the constructor lowercased); an unmapped or unparsable index, or an empty
mapped name, falls back to the lowercased label. Python's `int()` on the
suffix is modelled by decimal `String.toNat?`. -/
def semantic_label (id2label : List (Nat × String)) (label : String) : String :=
  let lowered := strToLower label
  if List.isPrefixOf "label_".data lowered.data then
    match digitsToNat? (lowered.data.drop 6) with
    | none => lowered
    | some idx =>
        match id2label.lookup idx with
        | some mapped => if mapped.data.isEmpty then lowered else mapped
        | none => lowered
  else lowered

/-- Model of Python's `max(results, key=score)`: first maximal element. -/
def maxByScore : ClassEntry → List ClassEntry → ClassEntry
  | best, [] => best
  | best, e :: rest => maxByScore (if e.score > best.score then e else best) rest

/-- The `for item in results` loop of `AiDetector.detect`: record the score of
a label whose semantic form contains "human", else of one containing "ai",
"machine" or "generated"; later entries overwrite earlier ones. Returns
`(ai_score, human_score)`. -/
def scanScores (id2label : List (Nat × String)) :
    List ClassEntry → Option ℚ × Option ℚ → Option ℚ × Option ℚ
  | [], acc => acc
  | e :: rest, (ai, hum) =>
      let semantic := semantic_label id2label e.label
      if strContains semantic "human" then
        scanScores id2label rest (ai, some e.score)
      else if strContains semantic "ai" || strContains semantic "machine" ||
          strContains semantic "generated" then
        scanScores id2label rest (some e.score, hum)
      else
        scanScores id2label rest (ai, hum)

/-- Model of `max(0.0, min(1.0, p))` in `AiDetector.detect`. -/
def clamp01 (p : ℚ) : ℚ :=
  max 0 (min 1 p)

/-- The probability selected by `AiDetector.detect` before clamping:
`ai_score` if present, else `1 - human_score`, else the top entry's score. -/
def rawProbability (id2label : List (Nat × String)) (r0 : ClassEntry)
    (rest : List ClassEntry) : ℚ :=
  match scanScores id2label (r0 :: rest) (none, none) with
  | (some ai, _) => ai
  | (none, some hum) => 1 - hum
  | (none, none) => (maxByScore r0 rest).score

/-- Model of `AiDetector.detect` on the classifier's result list: `none`
models the RuntimeError raised on an empty result list; otherwise the
clamped probability and the top label's semantic form. -/
def detect (id2label : List (Nat × String)) (results : List ClassEntry) :
    Option DetectionResult :=
  match results with
  | [] => none
  | r0 :: rest =>
      some { probability_ai := clamp01 (rawProbability id2label r0 rest),
             label := semantic_label id2label
               (strToLower (maxByScore r0 rest).label) }

/-- Job kinds dispatched by `Bot.worker_loop`. -/
inductive JobKind where
  | poll
  | fetchAndReply
deriving DecidableEq, Repr

/-- A queued job (class QueueJob in bot.py). -/
structure Job where
  priority : Nat
  sequence : Nat
  kind : JobKind
  payloadCommentId : Option String
deriving DecidableEq, Repr

/-- What a handler run did before returning control to `worker_loop`: normal
completion, or a raised exception; both carry the bot state at that point and
the jobs the handler pushed before it. -/
inductive HandlerOutcome where
  | ok (st : BotState) (enqueued : List Job)
  | raised (st : BotState) (enqueued : List Job)
deriving DecidableEq, Repr

/-- The try/except around job dispatch in `Bot.worker_loop`: an exception is
caught at this boundary; the except block clears `poll_in_progress` when the
failed job was a poll job and pushes nothing in either case. Totality of this
function models that the exception does not escape the loop. Returns the bot
state after the iteration and the jobs pushed during it. -/
def worker_dispatch (job : Job) (outcome : HandlerOutcome) : BotState × List Job :=
  match outcome with
  | .ok st enq => (st, enq)
  | .raised st enq =>
      match job.kind with
      | .poll => ({ st with pollInProgress := false }, enq)
      | .fetchAndReply => (st, enq)

/-- The worker loop over a trace of dequeued jobs and their handler outcomes:
every dequeued job gets a dispatch iteration, raising or not. -/
def worker_loop (steps : List (Job × HandlerOutcome)) : List (BotState × List Job) :=
  steps.map (fun s => worker_dispatch s.1 s.2)

/-- Concrete states and inputs used to instantiate the theorems below. -/
def pollStore0 : StorageState := ⟨none, []⟩

def pollBot0 : BotState := ⟨pollStore0, true⟩

def trigComment0 : Comment := ⟨"t1_x", "x", "Is this !isthisai ?"⟩

def comments100 : List Comment :=
  (List.range 100).map (fun i => ⟨"t1_c" ++ toString i, "c" ++ toString i, ""⟩)

def reactEnv0 : ReactEnv := ⟨some "hello", 1/2, 150⟩

def repliedStore0 : StorageState := ⟨none, ["abc"]⟩

def pollJob0 : Job := ⟨1, 1, JobKind.poll, none⟩

def reactJob0 : Job := ⟨2, 2, JobKind.fetchAndReply, some "abc"⟩

/-- A concrete feed-order assignment on fullnames, used to discuss cursor
monotonicity: "t1_a" sits at feed position 1, everything else at 2. -/
def feedPos0 : String → Nat := fun s => if s = "t1_a" then 1 else 2

lemma pollLoopEvents_filter_poll (trigger : String) (store : StorageState)
    (cs : List Comment) :
    (pollLoopEvents trigger store cs).filter Event.isEnqueuePoll = [] := by
  induction cs with
  | nil => rfl
  | cons c cs ih =>
      unfold pollLoopEvents
      split_ifs with h
      · simpa [List.filter_cons, Event.isEnqueuePoll] using ih
      · exact ih

lemma clamp01_nonneg (p : ℚ) : 0 ≤ clamp01 p :=
  le_max_left 0 _

lemma clamp01_le_one (p : ℚ) : clamp01 p ≤ 1 :=
  max_le (by norm_num) (min_le_left 1 p)

lemma refill_inv (b : TokenBucket) (now : ℚ)
    (hrate : 0 ≤ b.refillPerSecond) (hinv : b.inv) : (b.refill now).inv := by
  obtain ⟨h0, hc⟩ := hinv
  simp only [TokenBucket.refill, TokenBucket.inv]
  split_ifs with h
  · exact ⟨h0, hc⟩
  · push_neg at h
    refine ⟨le_min (le_trans h0 hc) ?_, min_le_left _ _⟩
    exact add_nonneg h0 (mul_nonneg (by linarith) hrate)

lemma consumeStep_inv (b : TokenBucket) (now amount : ℚ)
    (hrate : 0 ≤ b.refillPerSecond) (hamount : 0 ≤ amount) (hinv : b.inv) :
    ((b.consumeStep now amount).1).inv := by
  obtain ⟨h0, hc⟩ := refill_inv b now hrate hinv
  simp only [TokenBucket.consumeStep, TokenBucket.inv]
  split_ifs with h
  · exact ⟨by dsimp only; linarith, by dsimp only; linarith⟩
  · exact ⟨h0, hc⟩

/-- C7: for every probability score, `Bot._confidence_band` returns "high"
exactly when `p ≥ 0.8 ∨ p ≤ 0.2`, "medium" exactly when that fails and
`p ≥ 0.65 ∨ p ≤ 0.35` holds, and "low" exactly when both fail. -/
theorem confidence_band_thresholds (p : ℚ) :
    (bot_confidence_band p = "high" ↔ (p ≥ 0.8 ∨ p ≤ 0.2)) ∧
    (bot_confidence_band p = "medium" ↔
      (¬(p ≥ 0.8 ∨ p ≤ 0.2) ∧ (p ≥ 0.65 ∨ p ≤ 0.35))) ∧
    (bot_confidence_band p = "low" ↔
      (¬(p ≥ 0.8 ∨ p ≤ 0.2) ∧ ¬(p ≥ 0.65 ∨ p ≤ 0.35))) := by
  unfold bot_confidence_band
  split_ifs with h1 h2 <;> refine ⟨?_, ?_, ?_⟩ <;> simp_all

/-- C9: the confidence-band function of bot.py and the one of cli_detect.py
agree on every score. -/
theorem confidence_bands_agree (score : ℚ) :
    cli_confidence_band score = bot_confidence_band score := rfl

lemma has_replied_mark (s : StorageState) (cid : String) :
    has_replied (mark_replied s cid) cid = true := by
  unfold mark_replied has_replied
  split_ifs with h
  · exact h
  · simp

lemma mark_replied_of_replied (s : StorageState) (cid : String)
    (h : has_replied s cid = true) : mark_replied s cid = s := by
  unfold has_replied at h
  unfold mark_replied
  rw [if_pos h]

/-- C8: `Storage.mark_replied` is idempotent, and `has_replied` holds for an
id just marked. -/
theorem mark_replied_idempotent (s : StorageState) (cid : String) :
    mark_replied (mark_replied s cid) cid = mark_replied s cid ∧
    has_replied (mark_replied s cid) cid = true :=
  ⟨mark_replied_of_replied _ _ (has_replied_mark s cid), has_replied_mark s cid⟩

/-- C10: on every non-empty classifier result list, `AiDetector.detect`
succeeds and the returned `probability_ai` is clamped into [0, 1],
whatever the raw scores and label conventions. -/
theorem detect_probability_in_unit_interval (d : List (Nat × String))
    (e : ClassEntry) (rest : List ClassEntry) :
    ∃ r, detect d (e :: rest) = some r ∧
      0 ≤ r.probability_ai ∧ r.probability_ai ≤ 1 :=
  ⟨_, rfl, clamp01_nonneg _, clamp01_le_one _⟩

/-- C1: on every non-empty fetch result, `handle_poll_job` persists the
cursor as `items[0].fullname`, the cursor write is the very first effect of
the run, and every React-job push sits at a strictly later trace position. -/
theorem handle_poll_sets_cursor_first (trigger : String) (st : BotState)
    (c0 : Comment) (rest : List Comment) :
    (handle_poll_job trigger st (c0 :: rest)).1.storage.lastSeenId =
      some c0.fullname ∧
    (handle_poll_job trigger st (c0 :: rest)).2.head? =
      some (Event.setLastSeen c0.fullname) ∧
    ∀ i cid, (handle_poll_job trigger st (c0 :: rest)).2[i]? =
      some (Event.enqueueFetchReply cid) → 0 < i := by
  unfold handle_poll_job set_last_seen_id
  dsimp only
  split_ifs <;> refine ⟨rfl, rfl, ?_⟩ <;> intro i cid h <;>
    cases i with
    | zero => simp at h
    | succ n => exact Nat.succ_pos n

/-- C1 witness: a one-comment page whose body carries the trigger; the React
push lands at trace position 1, strictly after the cursor write. -/
theorem handle_poll_sets_cursor_first_witness :
    (handle_poll_job "!isthisai" pollBot0 [trigComment0]).2[1]? =
      some (Event.enqueueFetchReply "x") ∧ 0 < 1 :=
  ⟨by decide,
   (handle_poll_sets_cursor_first "!isthisai" pollBot0 trigComment0 []).2.2
     1 "x" (by decide)⟩

/-- C2: a full page (exactly 100 items) pushes exactly one chained poll job
and leaves `poll_in_progress` untouched; a non-empty short page pushes no
poll job and clears the flag; an empty page clears the flag, leaves storage
(including the cursor) unchanged and pushes no job of either kind. -/
theorem handle_poll_page_chaining (trigger : String) (st : BotState)
    (comments : List Comment) :
    (comments.length = 100 →
      countPollJobs (handle_poll_job trigger st comments).2 = 1 ∧
      (handle_poll_job trigger st comments).1.pollInProgress =
        st.pollInProgress) ∧
    (comments ≠ [] → comments.length < 100 →
      countPollJobs (handle_poll_job trigger st comments).2 = 0 ∧
      (handle_poll_job trigger st comments).1.pollInProgress = false) ∧
    (comments = [] →
      (handle_poll_job trigger st comments).1.pollInProgress = false ∧
      (handle_poll_job trigger st comments).1.storage = st.storage ∧
      countReactJobs (handle_poll_job trigger st comments).2 = 0 ∧
      countPollJobs (handle_poll_job trigger st comments).2 = 0) := by
  refine ⟨?_, ?_, ?_⟩
  · intro hlen
    cases comments with
    | nil => simp at hlen
    | cons c0 rest =>
        have hbeq : ((c0 :: rest).length == 100) = true := by
          rw [beq_iff_eq]; exact hlen
        unfold handle_poll_job
        dsimp only
        rw [if_pos hbeq]
        refine ⟨?_, rfl⟩
        simp [countPollJobs, List.filter_cons, List.filter_append,
          pollLoopEvents_filter_poll, Event.isEnqueuePoll]
  · intro hne hlen
    cases comments with
    | nil => exact absurd rfl hne
    | cons c0 rest =>
        have hbeq : ((c0 :: rest).length == 100) = false := by
          rw [beq_eq_false_iff_ne]; exact Nat.ne_of_lt hlen
        have hcond : ¬ (((c0 :: rest).length == 100) = true) := by
          rw [hbeq]; exact Bool.false_ne_true
        unfold handle_poll_job
        dsimp only
        rw [if_neg hcond]
        refine ⟨?_, rfl⟩
        simp [countPollJobs, List.filter_cons, List.filter_append,
          pollLoopEvents_filter_poll, Event.isEnqueuePoll]
  · intro hnil
    subst hnil
    exact ⟨rfl, rfl, rfl, rfl⟩

/-- C2 witness: the theorem applied to a 100-item page, a one-item page, and
an empty page. -/
theorem handle_poll_page_chaining_witness :
    countPollJobs (handle_poll_job "t" pollBot0 comments100).2 = 1 ∧
    (handle_poll_job "t" pollBot0 [trigComment0]).1.pollInProgress = false ∧
    (handle_poll_job "t" pollBot0 []).1.storage = pollBot0.storage :=
  ⟨((handle_poll_page_chaining "t" pollBot0 comments100).1
      (by simp [comments100])).1,
   ((handle_poll_page_chaining "t" pollBot0 [trigComment0]).2.1
      (by simp) (by norm_num)).2,
   ((handle_poll_page_chaining "t" pollBot0 []).2.2 rfl).2.1⟩

/-- C3: the worker loop gives every dequeued job a dispatch iteration even
when handlers raise (the exception is caught at the boundary); the except
block pushes no job, clears `poll_in_progress` for a failed poll job, and
leaves the state untouched for a failed React job, whose handler itself
never pushes any job. -/
theorem worker_catches_at_dispatch (job : Job) (st : BotState)
    (enq : List Job) (steps : List (Job × HandlerOutcome)) :
    (worker_loop steps).length = steps.length ∧
    (worker_dispatch job (HandlerOutcome.raised st enq)).2 = enq ∧
    (job.kind = JobKind.poll →
      (worker_dispatch job (HandlerOutcome.raised st enq)).1 =
        { st with pollInProgress := false }) ∧
    (job.kind = JobKind.fetchAndReply →
      (worker_dispatch job (HandlerOutcome.raised st enq)).1 = st) ∧
    (∀ env store cid,
      countPollJobs (handle_fetch_and_reply env store cid).2 = 0 ∧
      countReactJobs (handle_fetch_and_reply env store cid).2 = 0) := by
  obtain ⟨p, s, k, pay⟩ := job
  refine ⟨List.length_map _ _, ?_, ?_, ?_, ?_⟩
  · cases k <;> rfl
  · intro hk
    cases k with
    | poll => rfl
    | fetchAndReply => exact absurd hk (by simp)
  · intro hk
    cases k with
    | poll => exact absurd hk (by simp)
    | fetchAndReply => rfl
  · intro env store cid
    unfold handle_fetch_and_reply
    dsimp only
    split_ifs <;> exact ⟨rfl, rfl⟩

/-- C3 witness: the theorem applied to a raising poll job and a raising
React job over a concrete state. -/
theorem worker_catches_at_dispatch_witness :
    (worker_dispatch pollJob0 (HandlerOutcome.raised pollBot0 [])).1 =
      { pollBot0 with pollInProgress := false } ∧
    (worker_dispatch reactJob0 (HandlerOutcome.raised pollBot0 [])).1 =
      pollBot0 :=
  ⟨(worker_catches_at_dispatch pollJob0 pollBot0 [] []).2.2.1 rfl,
   (worker_catches_at_dispatch reactJob0 pollBot0 [] []).2.2.2.1 rfl⟩

/-- C4 counterexample: `handle_poll_job` writes `items[0].fullname` without
comparing it to the stored cursor, so with the previous cursor "t1_b" at
feed position 2 and a fetch result whose newest item "t1_a" sits at feed
position 1, the write moves the persisted cursor strictly backward. -/
theorem cursor_write_moves_backward :
    (handle_poll_job "!isthisai" ⟨⟨some "t1_b", []⟩, true⟩
        [⟨"t1_a", "a", ""⟩]).1.storage.lastSeenId = some "t1_a" ∧
    feedPos0 "t1_a" < feedPos0 "t1_b" := by
  refine ⟨by decide, by decide⟩

/-- C4 amended: `handle_poll_job` always overwrites the cursor with
`items[0].fullname`; whenever the fetch collaborator honours its contract
and returns a newest item at or ahead of the stored cursor in feed order,
the write never moves the cursor backward. -/
theorem cursor_advances_under_fetch_contract (pos : String → Nat)
    (trigger : String) (st : BotState) (c0 : Comment) (rest : List Comment)
    (old : String) (hold : get_last_seen_id st.storage = some old)
    (horder : pos old ≤ pos c0.fullname) :
    (handle_poll_job trigger st (c0 :: rest)).1.storage.lastSeenId =
      some c0.fullname ∧
    ∀ nw, (handle_poll_job trigger st (c0 :: rest)).1.storage.lastSeenId =
      some nw → pos old ≤ pos nw := by
  have h1 : (handle_poll_job trigger st (c0 :: rest)).1.storage.lastSeenId =
      some c0.fullname := by
    unfold handle_poll_job set_last_seen_id
    dsimp only
    split_ifs <;> rfl
  refine ⟨h1, ?_⟩
  intro nw hnw
  rw [h1] at hnw
  injection hnw with hnw
  subst hnw
  exact horder

/-- C4 amended witness: a fetch result ahead of the stored cursor under the
concrete feed order `feedPos0`. -/
theorem cursor_advances_under_fetch_contract_witness :
    (handle_poll_job "t" ⟨⟨some "t1_a", []⟩, true⟩
        [⟨"t1_b", "b", ""⟩]).1.storage.lastSeenId = some "t1_b" :=
  (cursor_advances_under_fetch_contract feedPos0 "t" ⟨⟨some "t1_a", []⟩, true⟩
    ⟨"t1_b", "b", ""⟩ [] "t1_a" rfl (by decide)).1

/-- C5: a React job for an id already in the ledger returns immediately:
the run performs no collaborator call at all (empty trace, so zero
`post_reply` and zero fetch calls) and leaves the storage state — ledger
and cursor — unchanged. -/
theorem react_skips_processed (env : ReactEnv) (store : StorageState)
    (cid : String) (h : has_replied store cid = true) :
    handle_fetch_and_reply env store cid = (store, []) := by
  unfold handle_fetch_and_reply
  rw [if_pos h]

/-- C5 witness: the theorem applied to a ledger already containing "abc". -/
theorem react_skips_processed_witness :
    handle_fetch_and_reply reactEnv0 repliedStore0 "abc" =
      (repliedStore0, []) :=
  react_skips_processed reactEnv0 repliedStore0 "abc" (by decide)

/-- C6 counterexample: `consume` checks `tokens >= amount` but never that
`amount` is nonnegative, so a negative amount with `amount ≤ capacity`
pushes the token count above capacity, breaking `0 ≤ tokens ≤ capacity`. -/
theorem tokenBucket_negative_amount_breaks_cap :
    ((-1 : ℚ) ≤ (TokenBucket.init 2 1 0).capacity) ∧
    ¬ ((TokenBucket.init 2 1 0).consumeStep 0 (-1)).1.inv := by
  refine ⟨by norm_num [TokenBucket.init], ?_⟩
  simp only [TokenBucket.init, TokenBucket.consumeStep, TokenBucket.refill,
    TokenBucket.inv]
  norm_num

/-- C6 amended: for a nonnegative capacity the freshly initialized bucket
satisfies `0 ≤ tokens ≤ capacity`, and for a nonnegative refill rate and a
nonnegative amount (at most the capacity) both `_refill` and a `consume`
attempt preserve the invariant. -/
theorem tokenBucket_invariant (cap rate now : ℚ) (b : TokenBucket)
    (now' amount : ℚ) (hcap : 0 ≤ cap) (hrate : 0 ≤ b.refillPerSecond)
    (hamount : 0 ≤ amount) (hamcap : amount ≤ b.capacity) (hinv : b.inv) :
    (TokenBucket.init cap rate now).inv ∧ (b.refill now').inv ∧
    ((b.consumeStep now' amount).1).inv :=
  ⟨⟨hcap, le_refl cap⟩, refill_inv b now' hrate hinv,
   consumeStep_inv b now' amount hrate hamount hinv⟩

/-- C6 amended witness: the configured bucket (90 calls/minute) after one
consume attempt of one token. -/
theorem tokenBucket_invariant_witness :
    ((TokenBucket.init 90 (3/2) 0).consumeStep 1 1).1.inv :=
  (tokenBucket_invariant 90 (3/2) 0 (TokenBucket.init 90 (3/2) 0) 1 1
    (by norm_num) (by norm_num [TokenBucket.init]) (by norm_num)
    (by norm_num [TokenBucket.init])
    (by norm_num [TokenBucket.init, TokenBucket.inv])).2.2

